import Mathlib

/-!
Verification of the AD-management daemon and web-panel diff logic of the
`osourced-scion` repository.  The Python sources are shallowly embedded:
pure fragments become Lean functions, filesystem / supervisor / ZooKeeper
effects become explicit state and event traces, and Python exceptions
become `Except` errors.
-/

/-- Python exceptions that can escape the daemon's handlers:
`ValueError` (failed tuple unpacking), `binascii.Error` (malformed
base64), `IsADirectoryError` (from `open(path, 'wb')` on a path naming
an existing directory), and `xmlrpc.client.Fault` (raised by the
supervisor proxy). -/
inductive PyExc where
  | valueError (msg : String)
  | binasciiError (msg : String)
  | isADirectoryError (path : String)
  | fault (msg : String)
  deriving DecidableEq, Repr

/-- Modelled from the spec: the RPC envelope produced by
`ad_management.common.response_success` / `response_failure`
(`{ok: bool}` plus `data` on success or `errors: [string]` on failure);
that helper module is not part of the provided sources. -/
inductive Response (α : Type) where
  | success (data : α)
  | failure (errors : List String)
  deriving DecidableEq, Repr

/-- Whether an envelope is a success (`is_success`). -/
def Response.isOk {α : Type} : Response α → Bool
  | .success _ => true
  | .failure _ => false

/-! ### Python string primitives used by the daemon -/

/-- Python `<=` on strings, as lexicographic comparison of code points. -/
def strLe : List Char → List Char → Bool
  | [], _ => true
  | _ :: _, [] => false
  | x :: xs, y :: ys =>
    if x.toNat < y.toNat then true
    else if y.toNat < x.toNat then false
    else strLe xs ys

/-- Split a character list on every occurrence of the character `sep`;
models Python `str.split(sep)` / `bytes.split(sep)` for a one-character
separator (an empty input yields one empty field). -/
def splitCharAux (sep : Char) (acc : List Char) : List Char → List (List Char)
  | [] => [acc.reverse]
  | c :: rest =>
    if c = sep then acc.reverse :: splitCharAux sep [] rest
    else splitCharAux sep (c :: acc) rest

/-- Models Python `name.split('__')`: split on the two-character
separator `__`, scanning left to right. -/
def splitDunderAux (acc : List Char) : List Char → List (List Char)
  | '_' :: '_' :: rest => acc.reverse :: splitDunderAux [] rest
  | c :: rest => splitDunderAux (c :: acc) rest
  | [] => [acc.reverse]

/-- The NUL character used as field separator in lock-node values. -/
def nulChar : Char := Char.ofNat 0

/-- Models `lock_contents[0].split(b"\x00")` (the stored value viewed as a
string of code points). -/
def splitNul (s : String) : List String :=
  (splitCharAux nulChar [] s.data).map String.mk

/-- Models Python `name.split('__')[-1]` from `get_master_id`:
the substring after the last `__` separator. -/
def get_id (name : String) : String :=
  String.mk ((splitDunderAux [] name.data).getLastD [])

/-- Models `os.path.join(a, b)` for POSIX paths: an absolute second
component replaces the first, otherwise the parts are joined with a
single `/`. -/
def pathJoin (a b : String) : String :=
  if b.data.head? = some '/' then b
  else if a = "" then b
  else if a.data.getLast? = some '/' then a ++ b
  else a ++ "/" ++ b

/-! ### Leader Resolver: `get_master_id` (monitoring_daemon.py) -/

/-- Python `sorted(contenders, key=get_id)` orders contenders by the
string value of their sequence suffix. -/
def contLe (a b : String) : Prop :=
  strLe (get_id a).data (get_id b).data = true

instance : DecidableRel contLe := fun a b => by
  unfold contLe; infer_instance

/-- The state of the ZooKeeper subtree visible to `get_master_id`:
the children of the lock path (`none` models an absent lock path, which
makes `get_children` raise `NoNodeError`) and the data stored at each
node path (`none` models `NoNodeError` from `kc.get`). -/
structure ZkState where
  children : Option (List String)
  data : String → Option String

/-- Models `'/ISD{}-AD{}/{}/lock'.format(isd_id, ad_id, server_type)`. -/
def lockPath (isd_id ad_id : Int) (server_type : String) : String :=
  s!"/ISD{isd_id}-AD{ad_id}/{server_type}/lock"

/-- Shallow embedding of `MonitoringDaemon.get_master_id`.  The
anticipated faults (invalid server type, absent lock path, no
contenders, vanished winner node) are returned as failure envelopes,
exactly as in the source; the destructuring
`server_id, _, _ = lock_contents[0].split(b"\x00")` raises `ValueError`
when the stored value does not have exactly three NUL-delimited fields,
and that exception is not caught by the handler. -/
def get_master_id (zk : ZkState) (isd_id ad_id : Int) (server_type : String) :
    Except PyExc (Response String) :=
  if server_type ∉ (["bs", "cs", "ps"] : List String) then
    .ok (.failure ["Invalid server type"])
  else
    match zk.children with
    | none => .ok (.failure ["No lock data found"])
    | some contenders =>
      if contenders = [] then .ok (.failure ["No lock contenders found"])
      else
        let lock_holder_file := (List.insertionSort contLe contenders).headD ""
        let lock_holder_path :=
          pathJoin (lockPath isd_id ad_id server_type) lock_holder_file
        match zk.data lock_holder_path with
        | none => .ok (.failure ["No lock data found"])
        | some lock_contents =>
          match splitNul lock_contents with
          | [server_id, _, _] => .ok (.success server_id)
          | _ => .error (.valueError "not enough values to unpack")

/-! ### Numeric interpretation of sequence suffixes -/

/-- Every character of the list is an ASCII digit. -/
def AllDigits (l : List Char) : Prop := ∀ c ∈ l, 48 ≤ c.toNat ∧ c.toNat ≤ 57

instance (l : List Char) : Decidable (AllDigits l) := by
  unfold AllDigits; infer_instance

/-- The numeric value of a digit string, most significant digit first. -/
def digitsVal (l : List Char) : Nat :=
  l.foldl (fun a c => 10 * a + (c.toNat - 48)) 0

/-- A concrete ZooKeeper state with three lock contenders, as in the
spec's example (`...0000000003`, `...0000000001`, `...0000000007`). -/
def zkThree : ZkState where
  children := some ["lock__0000000003", "lock__0000000001", "lock__0000000007"]
  data := fun p =>
    if p = "/ISD1-AD2/bs/lock/lock__0000000001" then
      some ("bs1\x00extra\x00fields")
    else none

/-- A concrete ZooKeeper state whose single contender stores a value
without NUL separators (a malformed lock value). -/
def zkMalformed : ZkState where
  children := some ["lock__0000000001"]
  data := fun p =>
    if p = "/ISD1-AD1/bs/lock/lock__0000000001" then some "justonefield"
    else none

/-! ### Update Installer: `send_update` (monitoring_daemon.py) -/

/-- The `data_dict` argument of `send_update`:
`{name, data (base64), digest (hex)}`. -/
structure UpdatePayload where
  name : String
  data : String
  digest : String
  deriving DecidableEq, Repr

/-- The staging area visible to `send_update`: whether `UPDATE_DIR_PATH`
exists, and the `(path, bytes)` pairs handed to `open(path, 'wb')`.
Failures of `open` itself (e.g. the path naming an existing directory)
are not modelled. -/
structure UpdateFs where
  dirExists : Bool
  files : List (String × List Nat)
  deriving DecidableEq, Repr

/-- The external effect of `run_updater`: launching the updater process
on the written archive. -/
inductive UpdEvent where
  | launchUpdater (archive : String)
  deriving DecidableEq, Repr

/-- Models `os.path.basename` for POSIX paths: the substring after the
last `/`. -/
def basenameStr (s : String) : String :=
  String.mk ((splitCharAux '/' [] s.data).getLastD [])

/-- Shallow embedding of `MonitoringDaemon.send_update`.  The hash
function (`hashlib.sha1(...).hexdigest()`) and the base64 decoder
(`base64.b64decode`, which raises `binascii.Error` on malformed input)
are abstracted as parameters; the control flow, the digest comparison,
the directory creation, the basename sanitization and the path join are
taken from the source.  `updateDir` stands for the constant
`UPDATE_DIR_PATH` imported from `ad_management.common` (not among the
provided sources).

The write `open(out_file_path, 'wb')` raises `IsADirectoryError` when
the path names an existing directory and writes nothing.  The basename
contains no separator and the staging directory (which exists after
`makedirs`, and whose parent therefore also exists) is assumed to
contain no subdirectories, so this happens exactly when the basename is
`""`, `"."` or `".."` — the joined path then denotes the staging
directory itself or its parent.  An escaping exception carries the
filesystem state at the point it is raised (the staging directory may
have just been created). -/
def send_update (sha1hex : List Nat → String)
    (b64dec : String → Except PyExc (List Nat)) (updateDir : String)
    (fs : UpdateFs) (dd : UpdatePayload) :
    Except (PyExc × UpdateFs) (Response Unit × UpdateFs × List UpdEvent) :=
  match b64dec dd.data with
  | .error e => .error (e, fs)
  | .ok raw_data =>
    if sha1hex raw_data ≠ dd.digest then
      .ok (.failure ["Hash value does not match"], fs, [])
    else
      let fs1 := if fs.dirExists then fs else { fs with dirExists := true }
      let archive_name := basenameStr dd.name
      let out_file_path := pathJoin updateDir archive_name
      if archive_name = "" ∨ archive_name = "." ∨ archive_name = ".." then
        .error (.isADirectoryError out_file_path, fs1)
      else
        let fs2 :=
          { fs1 with files := (out_file_path, raw_data) :: fs1.files }
        .ok (.success (), fs2, [.launchUpdater out_file_path])

/-! ### POSIX path containment -/

/-- The `/`-separated components of a path. -/
def pathSegs (s : String) : List String :=
  (splitCharAux '/' [] s.data).map String.mk

/-- One step of POSIX path resolution for an absolute path: empty and
`.` components are dropped, `..` removes the last resolved component
(at the root it stays at the root), anything else descends. -/
def normStep (stack : List String) (seg : String) : List String :=
  if seg = "" ∨ seg = "." then stack
  else if seg = ".." then stack.dropLast
  else stack ++ [seg]

/-- The resolved component list of an absolute path. -/
def normalizePath (s : String) : List String :=
  (pathSegs s).foldl normStep []

/-- Strip a directory's resolved components from a path's resolved
components; `none` when the path does not lie below the directory. -/
def stripRoot : List String → List String → Option (List String)
  | [], l => some l
  | _ :: _, [] => none
  | d :: ds, o :: os => if d = o then stripRoot ds os else none

/-- `out` resolves to a location strictly inside the directory `dir`
(both taken as absolute paths). -/
def insideDir (dir out : String) : Bool :=
  match stripRoot (normalizePath dir) (normalizePath out) with
  | some rest => !rest.isEmpty
  | none => false

/-! ### Topology Synchronizer: `update_topology` (monitoring_daemon.py) -/

/-- The externally observable effects of `update_topology`, in program
order: writing the topology file, writing derivative config files
(`ConfigGenerator.write_derivatives`), and scheduling the deferred
supervisor restart (`restart_supervisor_async`, a daemon thread that
sleeps briefly and then calls `supervisor.restart()`). -/
inductive TopoEvent where
  | writeTopologyFile
  | writeDerivatives
  | scheduleSupervisorRestart
  deriving DecidableEq, Repr

/-- Shallow embedding of `MonitoringDaemon.update_topology`.
`topoFile` is the current content of the topology file at `topo_path`
(`none` models `os.path.isfile` returning false); `jsonDump` abstracts
`json.dump(topology, ..., sort_keys=True, indent=4)`.  The result is
the RPC envelope, the new file content, and the ordered side effects. -/
def update_topology {α : Type} (jsonDump : α → String)
    (topoFile : Option String) (topology : α) :
    Response String × Option String × List TopoEvent :=
  match topoFile with
  | none => (.failure ["No AD topology found"], none, [])
  | some _ =>
    (.success "Topology file is successfully updated",
      some (jsonDump topology),
      [.writeTopologyFile, .writeDerivatives, .scheduleSupervisorRestart])

/-! ### Topology diff: `_get_changes` (web_scion/ad_manager/views.py) -/

/-- The `Interface` sub-record of an edge-router element, per the
topology document format. -/
structure TopoIface where
  NeighborType : String
  NeighborISD : Int
  NeighborAD : Int
  Addr : String
  AddrType : String
  ToAddr : String
  UdpPort : Int
  ToUdpPort : Int
  IFID : Int
  deriving DecidableEq, Repr

/-- A plain server element: `{AddrType, Addr}`. -/
structure ServerEl where
  AddrType : String
  Addr : String
  deriving DecidableEq, Repr

/-- An edge-router element: a server element plus an `Interface`. -/
structure RouterEl where
  AddrType : String
  Addr : String
  Interface : TopoIface
  deriving DecidableEq, Repr

/-- A topology document.  Each collection is the association list of
`(name, element)` items in dictionary insertion order. -/
structure TopologyDoc where
  ISDID : Int
  ADID : Int
  Core : Int
  EdgeRouters : List (String × RouterEl)
  PathServers : List (String × ServerEl)
  BeaconServers : List (String × ServerEl)
  CertificateServers : List (String × ServerEl)
  DNSServers : List (String × ServerEl)
  deriving DecidableEq, Repr

/-- Models Python `int(string)` on an optional minus sign followed by
decimal digits (`none` corresponds to a raised `ValueError`). -/
def pyInt? (s : String) : Option Int :=
  match s.data with
  | [] => none
  | '-' :: ds =>
    if ds ≠ [] ∧ ds.all Char.isDigit then some (-(digitsVal ds : Int))
    else none
  | ds => if ds.all Char.isDigit then some ((digitsVal ds : Int)) else none

/-- Models `int(item[0])` from the sort key of `_get_changes`.  Python
raises `ValueError` on a non-numeric name; the model totalizes with a
default that is never exercised because every theorem about the diff
assumes all element names parse (`ValidTopoDoc`). -/
def pyIntKey (s : String) : Int := (pyInt? s).getD 0

/-- The sort key order `key_sort = lambda item: int(item[0])`. -/
def keyLe {α : Type} (p q : String × α) : Prop := pyIntKey p.1 ≤ pyIntKey q.1

instance {α : Type} : DecidableRel (keyLe (α := α)) := fun p q => by
  unfold keyLe; infer_instance

/-- Models `sorted(topology[server_type].items(), key=key_sort)`.
Python's sort is stable, and stable sorting by a total preorder is
realized by insertion sort. -/
def sortByName {α : Type} (l : List (String × α)) : List (String × α) :=
  List.insertionSort keyLe l

/-- `'"{}" values differ'.format(key)`. -/
def scalarMsg (key : String) : String := "\"" ++ key ++ "\" values differ"

/-- `'Different number of "{}" servers'.format(server_type)`. -/
def countMsg (t : String) : String :=
  "Different number of \"" ++ t ++ "\" servers"

/-- `'"{}" values differ for one of {}. Local: {}, remote: {}'` with
`key = 'Addr'`, the local (current) value and the remote value. -/
def addrMsg (t lv rv : String) : String :=
  "\"Addr\" values differ for one of " ++ t ++ ". Local: " ++ lv ++
    ", remote: " ++ rv

/-- `'"{}:{}" differ for one of {}. Local: {}, remote: {}'.format(
field_name, field, server_type, remote_value, current_value)` — note the
source passes the remote value into the `Local:` slot and the current
value into the `remote:` slot. -/
def ifaceMsg (field t shownLocal shownRemote : String) : String :=
  "\"Interface:" ++ field ++ "\" differ for one of " ++ t ++
    ". Local: " ++ shownLocal ++ ", remote: " ++ shownRemote

/-- Field comparison for one pair of plain server elements
(`element_fields` lists only `'Addr'` for them). -/
def serverPairChanges (typeName : String) (rs cs : ServerEl) : List String :=
  if rs.Addr ≠ cs.Addr then [addrMsg typeName cs.Addr rs.Addr] else []

/-- Field comparison for one pair of edge-router elements: the `Addr`
field and the nested `Interface` fields
`['NeighborAD', 'NeighborISD', 'NeighborType']`, in source order. -/
def routerPairChanges (rs cs : RouterEl) : List String :=
  (if rs.Addr ≠ cs.Addr then [addrMsg "EdgeRouters" cs.Addr rs.Addr] else [])
    ++ (if rs.Interface.NeighborAD ≠ cs.Interface.NeighborAD then
      [ifaceMsg "NeighborAD" "EdgeRouters" (toString rs.Interface.NeighborAD)
        (toString cs.Interface.NeighborAD)] else [])
    ++ (if rs.Interface.NeighborISD ≠ cs.Interface.NeighborISD then
      [ifaceMsg "NeighborISD" "EdgeRouters" (toString rs.Interface.NeighborISD)
        (toString cs.Interface.NeighborISD)] else [])
    ++ (if rs.Interface.NeighborType ≠ cs.Interface.NeighborType then
      [ifaceMsg "NeighborType" "EdgeRouters" rs.Interface.NeighborType
        cs.Interface.NeighborType] else [])

/-- The diff contribution of one plain server collection: sort both
sides by numeric name, compare counts first (a mismatch yields a single
entry and skips the field comparison), else compare pairwise. -/
def serverCollChanges (typeName : String)
    (cur rem : List (String × ServerEl)) : List String :=
  let remote_servers := (sortByName rem).map Prod.snd
  let current_servers := (sortByName cur).map Prod.snd
  if remote_servers.length ≠ current_servers.length then [countMsg typeName]
  else (remote_servers.zip current_servers).flatMap
    (fun p => serverPairChanges typeName p.1 p.2)

/-- The diff contribution of the edge-router collection. -/
def routerCollChanges (cur rem : List (String × RouterEl)) : List String :=
  let remote_servers := (sortByName rem).map Prod.snd
  let current_servers := (sortByName cur).map Prod.snd
  if remote_servers.length ≠ current_servers.length then
    [countMsg "EdgeRouters"]
  else (remote_servers.zip current_servers).flatMap
    (fun p => routerPairChanges p.1 p.2)

/-- The scalar-field comparison of `_get_changes`
(`keys = ['ADID', 'ISDID', 'Core']`). -/
def scalarChanges (current remote : TopologyDoc) : List String :=
  (if remote.ADID ≠ current.ADID then [scalarMsg "ADID"] else [])
    ++ (if remote.ISDID ≠ current.ISDID then [scalarMsg "ISDID"] else [])
    ++ (if remote.Core ≠ current.Core then [scalarMsg "Core"] else [])

/-- Shallow embedding of `_get_changes(current_topology,
remote_topology)`.  The four diffed collections are visited in the
insertion order of the `element_fields` dict literal: `PathServers`,
`CertificateServers`, `BeaconServers`, `EdgeRouters`; the `DNSServers`
collection is not visited. -/
def _get_changes (current remote : TopologyDoc) : List String :=
  scalarChanges current remote
    ++ serverCollChanges "PathServers" current.PathServers remote.PathServers
    ++ serverCollChanges "CertificateServers" current.CertificateServers
      remote.CertificateServers
    ++ serverCollChanges "BeaconServers" current.BeaconServers
      remote.BeaconServers
    ++ routerCollChanges current.EdgeRouters remote.EdgeRouters

/-- The comparison status computed by `compare_remote_topology`: `OK`
when the change list is empty, `CHANGED` otherwise. -/
def compareStatus (current remote : TopologyDoc) : String :=
  if _get_changes current remote = [] then "OK" else "CHANGED"

/-- Every element name of the list parses as an integer (so that
Python's `int(item[0])` does not raise). -/
def ValidColl {α : Type} (l : List (String × α)) : Prop :=
  ∀ p ∈ l, (pyInt? p.1).isSome = true

instance {α : Type} (l : List (String × α)) : Decidable (ValidColl l) := by
  unfold ValidColl; infer_instance

/-- All element names of the four diffed collections parse as integers
(`DNSServers` names never reach `int()` in `_get_changes`). -/
def ValidTopoDoc (t : TopologyDoc) : Prop :=
  ValidColl t.EdgeRouters ∧ ValidColl t.PathServers ∧
    ValidColl t.BeaconServers ∧ ValidColl t.CertificateServers

instance (t : TopologyDoc) : Decidable (ValidTopoDoc t) := by
  unfold ValidTopoDoc; infer_instance

/-- Replace the `Interface.NeighborType` of the element named `n` by
`t'`, leaving everything else unchanged. -/
def modNeighborType (n t' : String) (p : String × RouterEl) :
    String × RouterEl :=
  if p.1 = n then
    (p.1, { p.2 with Interface := { p.2.Interface with NeighborType := t' } })
  else p

/-! ### Topology apply: `AD.fill_from_topology`
(web_scion/ad_manager/models.py) -/

/-- The Django exceptions relevant to `fill_from_topology`:
`AD.DoesNotExist` raised by `AD.objects.get`, and `IntegrityError`,
the only class caught by the `try` block around the inserts. -/
inductive DjangoExc where
  | doesNotExist
  | integrityError
  deriving DecidableEq, Repr

/-- A row of the `AD` table (its primary key and its ISD). -/
structure DbAD where
  id : Int
  isd : Int
  deriving DecidableEq, Repr

/-- Modelled from the spec: the `Interface` sub-record of a
`lib.topology` edge router (that module is not among the provided
sources) — neighbor domain identity, neighbor relationship type,
local/remote interface addresses, and interface identifier. -/
structure LibIface where
  neighbor_isd : Int
  neighbor_ad : Int
  neighbor_type : String
  addr : String
  to_addr : String
  if_id : Int
  deriving DecidableEq, Repr

/-- Modelled from the spec: a `lib.topology` edge-router element. -/
structure LibRouter where
  name : String
  addr : String
  interface : LibIface
  deriving DecidableEq, Repr

/-- Modelled from the spec: a `lib.topology` server element. -/
structure LibServer where
  name : String
  addr : String
  deriving DecidableEq, Repr

/-- Modelled from the spec: the `lib.topology.Topology` object consumed
by `fill_from_topology` (core flag plus the five element groups). -/
structure LibTopology where
  is_core_ad : Bool
  routers : List LibRouter
  beacon_servers : List LibServer
  certificate_servers : List LibServer
  path_servers : List LibServer
  dns_servers : List LibServer
  deriving DecidableEq, Repr

/-- A `RouterWeb` row as saved by `fill_from_topology`. -/
structure RouterRow where
  addr : String
  name : String
  neighbor_ad_id : Int
  neighbor_type : String
  interface_addr : String
  interface_toaddr : String
  interface_id : Int
  deriving DecidableEq, Repr

/-- A `*ServerWeb` row as saved by `fill_from_topology`. -/
structure ServerRow where
  addr : String
  name : String
  deriving DecidableEq, Repr

/-- The database state of one AD as seen by `fill_from_topology`: the
global `AD` table (for neighbor lookups) plus this AD's element rows. -/
structure AdState where
  ads : List DbAD
  isCore : Bool
  routers : List RouterRow
  pathServers : List ServerRow
  beaconServers : List ServerRow
  certificateServers : List ServerRow
  dnsServers : List ServerRow
  deriving DecidableEq, Repr

/-- Models `AD.objects.get(id=..., isd=...)`: `none` corresponds to an
`AD.DoesNotExist` exception (`id` is the primary key, so multiple
matches cannot occur). -/
def adObjectsGet (ads : List DbAD) (aid isd : Int) : Option DbAD :=
  ads.find? (fun a => a.id == aid && a.isd == isd)

/-- The router loop of `fill_from_topology`: each router's neighbor
reference is resolved with `AD.objects.get` and a `RouterWeb` row is
saved.  An unresolved reference raises `DoesNotExist`; the rows saved
before the failure are carried in the error (database uniqueness
violations, the only source of `IntegrityError` here, are not
modelled — row saves succeed). -/
def saveRouters (ads : List DbAD) :
    List LibRouter → Except (DjangoExc × List RouterRow) (List RouterRow)
  | [] => .ok []
  | r :: rest =>
    match adObjectsGet ads r.interface.neighbor_ad r.interface.neighbor_isd
      with
    | none => .error (.doesNotExist, [])
    | some nb =>
      let row : RouterRow :=
        { addr := r.addr, name := r.name, neighbor_ad_id := nb.id,
          neighbor_type := r.interface.neighbor_type,
          interface_addr := r.interface.addr,
          interface_toaddr := r.interface.to_addr,
          interface_id := r.interface.if_id }
      match saveRouters ads rest with
      | .ok rows => .ok (row :: rows)
      | .error (e, rows) => .error (e, row :: rows)

/-- Shallow embedding of `AD.fill_from_topology(topology, clear)`:
optional clearing of the five element collections, adoption of the core
flag, then the guarded insert loops.  The `try` block catches only
`IntegrityError` (`except IntegrityError: pass`); `AD.DoesNotExist`
from a neighbor lookup propagates out of the method. -/
def fill_from_topology (st : AdState) (topology : LibTopology)
    (clear : Bool) : Except DjangoExc AdState :=
  let st1 := if clear then
      { st with
        routers := []
        pathServers := []
        certificateServers := []
        beaconServers := []
        dnsServers := [] }
    else st
  let st2 := { st1 with isCore := topology.is_core_ad }
  match saveRouters st2.ads topology.routers with
  | .error (.integrityError, rows) =>
    .ok { st2 with routers := st2.routers ++ rows }
  | .error (.doesNotExist, _) => .error .doesNotExist
  | .ok rows =>
    .ok { st2 with
      routers := st2.routers ++ rows,
      beaconServers := st2.beaconServers ++
        topology.beacon_servers.map (fun s => { addr := s.addr, name := s.name }),
      certificateServers := st2.certificateServers ++
        topology.certificate_servers.map
          (fun s => { addr := s.addr, name := s.name }),
      pathServers := st2.pathServers ++
        topology.path_servers.map (fun s => { addr := s.addr, name := s.name }),
      dnsServers := st2.dnsServers ++
        topology.dns_servers.map (fun s => { addr := s.addr, name := s.name }) }

/-! ### Concrete fixtures for witnesses and counterexamples -/

/-- A database state with an empty `AD` table. -/
def adStateNoAds : AdState where
  ads := []
  isCore := false
  routers := []
  pathServers := []
  beaconServers := []
  certificateServers := []
  dnsServers := []

/-- A topology whose single router references the (absent) neighbor
AD 7 in ISD 7. -/
def topoOneRouter : LibTopology where
  is_core_ad := false
  routers := [{ name := "1"
                addr := "127.0.0.1"
                interface := { neighbor_isd := 7
                               neighbor_ad := 7
                               neighbor_type := "PARENT"
                               addr := "10.0.0.1"
                               to_addr := "10.0.0.2"
                               if_id := 1 } }]
  beacon_servers := []
  certificate_servers := []
  path_servers := []
  dns_servers := []

/-- A concrete edge-router element. -/
def routerA : RouterEl where
  AddrType := "IPv4"
  Addr := "127.0.0.3"
  Interface := { NeighborType := "PARENT"
                 NeighborISD := 1
                 NeighborAD := 9
                 Addr := "10.0.0.1"
                 AddrType := "IPv4"
                 ToAddr := "10.0.0.2"
                 UdpPort := 30040
                 ToUdpPort := 30040
                 IFID := 1 }

/-- A small valid topology document. -/
def topoDocA : TopologyDoc where
  ISDID := 1
  ADID := 2
  Core := 0
  EdgeRouters := [("3", routerA)]
  PathServers := [("1", { AddrType := "IPv4", Addr := "127.0.0.1" })]
  BeaconServers := [("2", { AddrType := "IPv4", Addr := "127.0.0.2" })]
  CertificateServers := []
  DNSServers := [("5", { AddrType := "IPv4", Addr := "127.0.0.5" })]

/-- `topoDocA` with the `NeighborType` of router `3` changed to
`CHILD`. -/
def topoDocANt : TopologyDoc :=
  { topoDocA with
    EdgeRouters := topoDocA.EdgeRouters.map (modNeighborType "3" "CHILD") }

/-- `topoDocA` with a different (empty) `DNSServers` collection. -/
def topoDocDnsDiff : TopologyDoc := { topoDocA with DNSServers := [] }

/-- `topoDocA` with an extra path server (count mismatch). -/
def topoDocPsExtra : TopologyDoc :=
  { topoDocA with
    PathServers := [("1", { AddrType := "IPv4", Addr := "127.0.0.1" }),
      ("4", { AddrType := "IPv4", Addr := "127.0.0.4" })] }

/-- `topoDocA` with the same path-server count but a different path
server address. -/
def topoDocPsAddr : TopologyDoc :=
  { topoDocA with
    PathServers := [("1", { AddrType := "IPv4", Addr := "127.0.0.9" })] }

/-- A database state whose `AD` table holds a single unrelated record
(id 3 in ISD 1). -/
def adStateOneAd : AdState where
  ads := [{ id := 3, isd := 1 }]
  isCore := false
  routers := []
  pathServers := []
  beaconServers := []
  certificateServers := []
  dnsServers := []

/-! ### Process Controller: `get_process_info`, `control_process`
(monitoring_daemon.py) -/

/-- A supervisor process-info record; only the `statename` field read
by `get_process_state` is modelled. -/
structure ProcInfo where
  statename : String
  deriving DecidableEq, Repr

/-- The external supervisor as seen through its XML-RPC proxy:
`getProcessInfo` (`none` models a raised `xmlrpc.client.Fault`, e.g.
`BAD_NAME`), and the outcomes of `startProcess` / `stopProcess` (which
may also raise `Fault`). -/
structure Supervisor where
  info : String → Option ProcInfo
  startOk : String → Except PyExc Bool
  stopOk : String → Except PyExc Bool

/-- Models `'ad{}-{}'.format(isd_id, ad_id)`. -/
def get_full_ad_name (isd_id ad_id : Int) : String :=
  s!"ad{isd_id}-{ad_id}"

/-- Shallow embedding of `MonitoringDaemon.get_process_info`: a
successful supervisor lookup is wrapped with `response_success`; a
supervisor `Fault` is not caught and escapes the handler. -/
def get_process_info (sup : Supervisor) (full_process_name : String) :
    Except PyExc (Response ProcInfo) :=
  match sup.info full_process_name with
  | none => .error (.fault "BAD_NAME")
  | some i => .ok (.success i)

/-- Shallow embedding of `MonitoringDaemon.get_process_state`:
`statename` of a successful `get_process_info` response, `None`
otherwise (an escaping `Fault` propagates further). -/
def get_process_state (sup : Supervisor) (full_process_name : String) :
    Except PyExc (Option String) :=
  match get_process_info sup full_process_name with
  | .error e => .error e
  | .ok (.success i) => .ok (some i.statename)
  | .ok (.failure _) => .ok none

/-- Shallow embedding of `MonitoringDaemon.start_process`: a no-op
returning `True` when already `RUNNING`/`STARTING`, else a
`startProcess` request. -/
def start_process (sup : Supervisor) (process_name : String) :
    Except PyExc Bool :=
  match get_process_state sup process_name with
  | .error e => .error e
  | .ok st =>
    if st = some "RUNNING" ∨ st = some "STARTING" then .ok true
    else sup.startOk process_name

/-- Shallow embedding of `MonitoringDaemon.stop_process`: a no-op
returning `True` unless `RUNNING`/`STARTING`, else a `stopProcess`
request. -/
def stop_process (sup : Supervisor) (process_name : String) :
    Except PyExc Bool :=
  match get_process_state sup process_name with
  | .error e => .error e
  | .ok st =>
    if st = some "RUNNING" ∨ st = some "STARTING" then
      sup.stopOk process_name
    else .ok true

/-- Shallow embedding of `MonitoringDaemon.control_process`: `START`,
`STOP` and `RESTART` (stop-then-start, discarding the stop result) map
to the process operations; any other command is converted to the
failure envelope `Invalid command`. -/
def control_process (sup : Supervisor) (isd_id ad_id : Int)
    (process_name command : String) : Except PyExc (Response Bool) :=
  let ad_name := get_full_ad_name isd_id ad_id
  let full_process_name := ad_name ++ ":" ++ process_name
  if command = "START" then
    match start_process sup full_process_name with
    | .error e => .error e
    | .ok res => .ok (.success res)
  else if command = "STOP" then
    match stop_process sup full_process_name with
    | .error e => .error e
    | .ok res => .ok (.success res)
  else if command = "RESTART" then
    match stop_process sup full_process_name with
    | .error e => .error e
    | .ok _ =>
      match start_process sup full_process_name with
      | .error e => .error e
      | .ok res => .ok (.success res)
  else .ok (.failure ["Invalid command"])

/-- A supervisor that knows no processes and accepts start/stop
requests. -/
def supNone : Supervisor where
  info := fun _ => none
  startOk := fun _ => .ok true
  stopOk := fun _ => .ok true

/-! ### Theorems and supporting lemmas -/

lemma digitsVal_foldl (l : List Char) (acc : Nat) :
    l.foldl (fun a c => 10 * a + (c.toNat - 48)) acc =
      acc * 10 ^ l.length + digitsVal l := by
  induction l generalizing acc with
  | nil => simp [digitsVal]
  | cons c l ih =>
    simp only [List.foldl_cons, List.length_cons, digitsVal]
    rw [ih, ih (10 * 0 + (c.toNat - 48))]
    ring

lemma digitsVal_cons (c : Char) (l : List Char) :
    digitsVal (c :: l) = (c.toNat - 48) * 10 ^ l.length + digitsVal l := by
  show List.foldl _ _ (c :: l) = _
  rw [List.foldl_cons, digitsVal_foldl]
  ring_nf

lemma digitsVal_lt_pow {l : List Char} (h : AllDigits l) :
    digitsVal l < 10 ^ l.length := by
  induction l with
  | nil => simp [digitsVal]
  | cons c l ih =>
    have hc := h c (List.mem_cons_self _ _)
    have hl : AllDigits l := fun x hx => h x (List.mem_cons_of_mem _ hx)
    have hv := ih hl
    have hd : c.toNat - 48 ≤ 9 := by omega
    rw [digitsVal_cons, List.length_cons, pow_succ]
    calc (c.toNat - 48) * 10 ^ l.length + digitsVal l
        < (c.toNat - 48) * 10 ^ l.length + 10 ^ l.length := by omega
      _ = ((c.toNat - 48) + 1) * 10 ^ l.length := by ring
      _ ≤ 10 ^ l.length * 10 := by
          have : (c.toNat - 48) + 1 ≤ 10 := by omega
          calc ((c.toNat - 48) + 1) * 10 ^ l.length ≤ 10 * 10 ^ l.length :=
                Nat.mul_le_mul_right _ this
            _ = 10 ^ l.length * 10 := by ring

lemma strLe_refl (xs : List Char) : strLe xs xs = true := by
  induction xs with
  | nil => rfl
  | cons x xs ih => simp [strLe, ih]

lemma strLe_total (xs ys : List Char) :
    strLe xs ys = true ∨ strLe ys xs = true := by
  induction xs generalizing ys with
  | nil => left; rfl
  | cons x xs ih =>
    cases ys with
    | nil => right; rfl
    | cons y ys =>
      simp only [strLe]
      rcases Nat.lt_trichotomy x.toNat y.toNat with hlt | heq | hgt
      · left; rw [if_pos hlt]
      · rcases ih ys with h | h
        · left; rw [if_neg (by omega), if_neg (by omega)]; exact h
        · right; rw [if_neg (by omega), if_neg (by omega)]; exact h
      · right; rw [if_pos hgt]

lemma strLe_trans :
    ∀ xs ys zs : List Char,
      strLe xs ys = true → strLe ys zs = true → strLe xs zs = true
  | [], _, _, _, _ => rfl
  | _ :: _, [], _, h1, _ => by simp [strLe] at h1
  | _ :: _, _ :: _, [], _, h2 => by simp [strLe] at h2
  | x :: xs, y :: ys, z :: zs, h1, h2 => by
    simp only [strLe] at h1 h2 ⊢
    split_ifs at h1 h2 ⊢ <;> try rfl
    all_goals try omega
    exact strLe_trans xs ys zs h1 h2

/-- On equal-length digit strings, Python string comparison coincides
with comparison of the numeric values. -/
lemma strLe_iff_digitsVal_le :
    ∀ xs ys : List Char, AllDigits xs → AllDigits ys → xs.length = ys.length →
      (strLe xs ys = true ↔ digitsVal xs ≤ digitsVal ys)
  | [], [], _, _, _ => by simp [strLe]
  | [], _ :: _, _, _, hlen => by simp at hlen
  | _ :: _, [], _, _, hlen => by simp at hlen
  | x :: xs, y :: ys, hx, hy, hlen => by
    have hx0 := hx x (List.mem_cons_self _ _)
    have hy0 := hy y (List.mem_cons_self _ _)
    have hxs : AllDigits xs := fun c hc => hx c (List.mem_cons_of_mem _ hc)
    have hys : AllDigits ys := fun c hc => hy c (List.mem_cons_of_mem _ hc)
    have hl : xs.length = ys.length := by simpa using hlen
    have hbx := digitsVal_lt_pow hxs
    have hby := digitsVal_lt_pow hys
    have ih := strLe_iff_digitsVal_le xs ys hxs hys hl
    simp only [strLe, digitsVal_cons, hl]
    split_ifs with h1 h2
    · have hstep : ((x.toNat - 48) + 1) * 10 ^ ys.length ≤
          (y.toNat - 48) * 10 ^ ys.length :=
        Nat.mul_le_mul_right _ (by omega)
      have : (x.toNat - 48) * 10 ^ ys.length + digitsVal xs <
          (y.toNat - 48) * 10 ^ ys.length + digitsVal ys := by
        have hx1 : (x.toNat - 48) * 10 ^ ys.length + digitsVal xs <
            ((x.toNat - 48) + 1) * 10 ^ ys.length := by
          have := hl ▸ hbx
          nlinarith
        omega
      simp only [true_iff]
      omega
    · have hstep : ((y.toNat - 48) + 1) * 10 ^ ys.length ≤
          (x.toNat - 48) * 10 ^ ys.length :=
        Nat.mul_le_mul_right _ (by omega)
      have : (y.toNat - 48) * 10 ^ ys.length + digitsVal ys <
          (x.toNat - 48) * 10 ^ ys.length + digitsVal xs := by
        have hy1 : (y.toNat - 48) * 10 ^ ys.length + digitsVal ys <
            ((y.toNat - 48) + 1) * 10 ^ ys.length := by nlinarith
        omega
      simp only [false_iff]
      omega
    · have hxy : x.toNat - 48 = y.toNat - 48 := by omega
      rw [hxy, ih]
      omega

/-- The head of a stably sorted non-empty list is a minimum of the list
(for a total transitive relation). -/
lemma insertionSort_headD_min {α : Type} {r : α → α → Prop} [DecidableRel r]
    [IsTotal α r] [IsTrans α r] (l : List α) (hl : l ≠ []) (d : α) :
    (List.insertionSort r l).headD d ∈ l ∧
      ∀ y ∈ l, r ((List.insertionSort r l).headD d) y := by
  cases hs : List.insertionSort r l with
  | nil =>
    exfalso
    have := List.length_insertionSort r l
    rw [hs] at this
    exact hl (List.eq_nil_of_length_eq_zero this.symm)
  | cons h t =>
    have hmem : h ∈ l := by
      rw [← List.mem_insertionSort r (l := l), hs]
      exact List.mem_cons_self _ _
    refine ⟨hmem, fun y hy => ?_⟩
    have hy2 : y ∈ h :: t := by
      rw [← hs, List.mem_insertionSort]
      exact hy
    rcases List.mem_cons.mp hy2 with rfl | hyt
    · rcases total_of r y y with h | h <;> exact h
    · have hsorted := List.sorted_insertionSort r l
      rw [hs] at hsorted
      exact List.rel_of_sorted_cons hsorted _ hyt

/-- C2: for a non-empty contender list whose sequence suffixes are
equal-length digit strings with pairwise-distinct numeric values,
`get_master_id` resolves the contender with the numerically smallest
suffix and returns the first NUL-delimited field of its stored value. -/
theorem getMasterId_selects_numeric_min (zk : ZkState) (isd_id ad_id : Int)
    (server_type : String) (contenders : List String) (m v a b c : String)
    (L : Nat)
    (hst : server_type ∈ (["bs", "cs", "ps"] : List String))
    (hch : zk.children = some contenders)
    (hne : contenders ≠ [])
    (hdig : ∀ x ∈ contenders,
      AllDigits (get_id x).data ∧ (get_id x).data.length = L)
    (hm : m ∈ contenders)
    (hmin : ∀ x ∈ contenders, x ≠ m →
      digitsVal (get_id m).data < digitsVal (get_id x).data)
    (hdata : zk.data (pathJoin (lockPath isd_id ad_id server_type) m) = some v)
    (hsplit : splitNul v = [a, b, c]) :
    get_master_id zk isd_id ad_id server_type = .ok (.success a) := by
  letI : IsTotal String contLe := ⟨fun x y => strLe_total _ _⟩
  letI : IsTrans String contLe := ⟨fun x y z h1 h2 => strLe_trans _ _ _ h1 h2⟩
  obtain ⟨hdmem, hdmin⟩ :=
    insertionSort_headD_min (r := contLe) contenders hne ""
  have hdeq : (List.insertionSort contLe contenders).headD "" = m := by
    set hd := (List.insertionSort contLe contenders).headD "" with hhd
    by_contra hne2
    have h1 := hmin hd hdmem hne2
    have h2 : contLe hd m := hdmin m hm
    obtain ⟨hdigHd, hlenHd⟩ := hdig hd hdmem
    obtain ⟨hdigM, hlenM⟩ := hdig m hm
    have := (strLe_iff_digitsVal_le _ _ hdigHd hdigM
      (by rw [hlenHd, hlenM])).mp h2
    omega
  unfold get_master_id
  rw [if_neg (by simp only [not_not]; exact hst), hch]
  simp only [hdeq, hne, if_false, hdata, hsplit]

/-- Witness for C2 at the spec's concrete example: among suffixes
`0000000003`, `0000000001`, `0000000007` the contender `0000000001`
wins and the first NUL-delimited field of its value is returned. -/
theorem getMasterId_selects_numeric_min_witness :
    get_master_id zkThree 1 2 "bs" = .ok (.success "bs1") :=
  getMasterId_selects_numeric_min zkThree 1 2 "bs"
    ["lock__0000000003", "lock__0000000001", "lock__0000000007"]
    "lock__0000000001" "bs1\x00extra\x00fields" "bs1" "extra" "fields" 10
    (by decide) rfl (by decide) (by decide) (by decide) (by decide)
    (by decide) (by decide)

/-- C1 counterexample: a handler-level fault is not converted to a
failure envelope — when the winning contender's stored value lacks the
expected NUL-delimited structure, the tuple unpacking in
`get_master_id` raises `ValueError`, which escapes the handler. -/
theorem getMasterId_unhandled_valueError :
    get_master_id zkMalformed 1 1 "bs" =
      .error (.valueError "not enough values to unpack") := by rfl

/-- C9: `update_topology` fails without writing or scheduling anything
when the topology file is absent; when it exists, the supplied document
is persisted and exactly one deferred supervisor restart is scheduled,
after the write. -/
theorem updateTopology_gate {α : Type} (jsonDump : α → String)
    (topoFile : Option String) (topology : α) :
    (topoFile = none →
      update_topology jsonDump topoFile topology =
        (.failure ["No AD topology found"], none, [])) ∧
    (∀ content, topoFile = some content →
      ∃ evs, update_topology jsonDump topoFile topology =
        (.success "Topology file is successfully updated",
          some (jsonDump topology), evs) ∧
        evs.count TopoEvent.scheduleSupervisorRestart = 1 ∧
        ∃ i j, i < j ∧ evs.get? i = some TopoEvent.writeTopologyFile ∧
          evs.get? j = some TopoEvent.scheduleSupervisorRestart) := by
  constructor
  · intro h; subst h; rfl
  · intro content h; subst h
    refine ⟨[.writeTopologyFile, .writeDerivatives,
      .scheduleSupervisorRestart], rfl, by rfl, 0, 2, by omega, rfl, rfl⟩

/-- Witness for C9: the missing-file and existing-file cases at concrete
inputs. -/
theorem updateTopology_gate_witness :
    update_topology (fun s : String => s) none "doc" =
      (.failure ["No AD topology found"], none, []) ∧
    ∃ evs, update_topology (fun s : String => s) (some "old") "doc" =
      (.success "Topology file is successfully updated", some "doc", evs) ∧
      evs.count TopoEvent.scheduleSupervisorRestart = 1 ∧
      ∃ i j, i < j ∧ evs.get? i = some TopoEvent.writeTopologyFile ∧
        evs.get? j = some TopoEvent.scheduleSupervisorRestart :=
  ⟨(updateTopology_gate (fun s : String => s) none "doc").1 rfl,
    (updateTopology_gate (fun s : String => s) (some "old") "doc").2
      "old" rfl⟩

lemma sendUpdate_mismatch_eq (sha1hex : List Nat → String)
    (b64dec : String → Except PyExc (List Nat)) (updateDir : String)
    (fs : UpdateFs) (dd : UpdatePayload) (raw : List Nat)
    (hdec : b64dec dd.data = .ok raw) (hne : sha1hex raw ≠ dd.digest) :
    send_update sha1hex b64dec updateDir fs dd =
      .ok (.failure ["Hash value does not match"], fs, []) := by
  simp only [send_update, hdec]
  rw [if_pos hne]

lemma sendUpdate_dir_error_eq (sha1hex : List Nat → String)
    (b64dec : String → Except PyExc (List Nat)) (updateDir : String)
    (fs : UpdateFs) (dd : UpdatePayload) (raw : List Nat)
    (hdec : b64dec dd.data = .ok raw) (hdig : sha1hex raw = dd.digest)
    (hbad : basenameStr dd.name = "" ∨ basenameStr dd.name = "." ∨
      basenameStr dd.name = "..") :
    send_update sha1hex b64dec updateDir fs dd =
      .error (.isADirectoryError (pathJoin updateDir (basenameStr dd.name)),
        if fs.dirExists then fs else { fs with dirExists := true }) := by
  simp only [send_update, hdec]
  rw [if_neg (by simp [hdig]), if_pos hbad]

lemma sendUpdate_success_eq (sha1hex : List Nat → String)
    (b64dec : String → Except PyExc (List Nat)) (updateDir : String)
    (fs : UpdateFs) (dd : UpdatePayload) (raw : List Nat)
    (hdec : b64dec dd.data = .ok raw) (hdig : sha1hex raw = dd.digest)
    (hgood : ¬(basenameStr dd.name = "" ∨ basenameStr dd.name = "." ∨
      basenameStr dd.name = "..")) :
    send_update sha1hex b64dec updateDir fs dd =
      .ok (.success (),
        { dirExists := true
          files := (pathJoin updateDir (basenameStr dd.name), raw) ::
            (if fs.dirExists then fs
              else { fs with dirExists := true }).files },
        [.launchUpdater (pathJoin updateDir (basenameStr dd.name))]) := by
  simp only [send_update, hdec]
  rw [if_neg (by simp [hdig]), if_neg hgood]
  by_cases hfs : fs.dirExists <;> simp [hfs]

/-- C3 counterexample: a payload whose declared digest matches the
digest of the decoded bytes but whose name's basename is `..` is not
accepted — `open(<staging>/.., 'wb')` raises `IsADirectoryError` — so
`accepts iff the digest matches` fails in the match direction. -/
theorem sendUpdate_match_not_accepted_cex :
    send_update (fun _ => "h") (fun _ => .ok ([] : List Nat)) "/update"
        ⟨true, []⟩ ⟨"..", "ignored", "h"⟩ =
      .error (.isADirectoryError "/update/..", ⟨true, []⟩) := rfl

/-- C3 amended: `send_update` accepts exactly when the declared digest
equals the digest of the decoded bytes and the sanitized basename is a
writable component (not `""`, `"."` or `".."`, for which the write
raises `IsADirectoryError` instead); on any digest mismatch it returns
the failure envelope with the staging filesystem untouched (directory
not created, no file written) and no updater launched. -/
theorem sendUpdate_digest_gate (sha1hex : List Nat → String)
    (b64dec : String → Except PyExc (List Nat)) (updateDir : String)
    (fs : UpdateFs) (dd : UpdatePayload) (raw : List Nat)
    (hdec : b64dec dd.data = .ok raw) :
    ((∃ fs2 evs, send_update sha1hex b64dec updateDir fs dd =
        .ok (.success (), fs2, evs)) ↔
      (sha1hex raw = dd.digest ∧ basenameStr dd.name ≠ "" ∧
        basenameStr dd.name ≠ "." ∧ basenameStr dd.name ≠ "..")) ∧
    (sha1hex raw ≠ dd.digest →
      send_update sha1hex b64dec updateDir fs dd =
        .ok (.failure ["Hash value does not match"], fs, [])) := by
  refine ⟨⟨?_, ?_⟩, fun hne =>
    sendUpdate_mismatch_eq sha1hex b64dec updateDir fs dd raw hdec hne⟩
  · rintro ⟨fs2, evs, hEq⟩
    by_cases h : sha1hex raw = dd.digest
    · by_cases hb : basenameStr dd.name = "" ∨ basenameStr dd.name = "." ∨
        basenameStr dd.name = ".."
      · rw [sendUpdate_dir_error_eq sha1hex b64dec updateDir fs dd raw
          hdec h hb] at hEq
        cases hEq
      · exact ⟨h, by tauto, by tauto, by tauto⟩
    · rw [sendUpdate_mismatch_eq sha1hex b64dec updateDir fs dd raw
        hdec h] at hEq
      simp at hEq
  · rintro ⟨h, h0, h1, h2⟩
    exact ⟨_, _, sendUpdate_success_eq sha1hex b64dec updateDir fs dd raw
      hdec h (by tauto)⟩

/-- Witness for the amended C3: a matching digest with a real filename
is accepted; a digest differing from the hash (e.g. by one flipped
bit) is rejected with no write. -/
theorem sendUpdate_digest_gate_witness :
    (∃ fs2 evs,
      send_update (fun _ => "ab") (fun _ => .ok [1]) "/update"
        ⟨false, []⟩ ⟨"pkg.tar", "AQ==", "ab"⟩ = .ok (.success (), fs2, evs)) ∧
    send_update (fun _ => "ab") (fun _ => .ok [1]) "/update"
        ⟨false, []⟩ ⟨"pkg.tar", "AQ==", "bb"⟩ =
      .ok (.failure ["Hash value does not match"], ⟨false, []⟩, []) :=
  ⟨(sendUpdate_digest_gate (fun _ => "ab") (fun _ => .ok [1]) "/update"
      ⟨false, []⟩ ⟨"pkg.tar", "AQ==", "ab"⟩ [1] rfl).1.mpr
      ⟨rfl, by decide, by decide, by decide⟩,
    (sendUpdate_digest_gate (fun _ => "ab") (fun _ => .ok [1]) "/update"
      ⟨false, []⟩ ⟨"pkg.tar", "AQ==", "bb"⟩ [1] rfl).2 (by decide)⟩

lemma splitCharAux_ne_nil (sep : Char) (acc l : List Char) :
    splitCharAux sep acc l ≠ [] := by
  induction l generalizing acc with
  | nil => simp [splitCharAux]
  | cons c rest ih =>
    by_cases hc : c = sep
    · simp [splitCharAux, hc]
    · simp only [splitCharAux, if_neg hc]
      exact ih _

lemma getLastD_irrel {α : Type} (l : List α) (h : l ≠ []) (d d' : α) :
    l.getLastD d = l.getLastD d' := by
  rw [List.getLastD_eq_getLast?, List.getLastD_eq_getLast?]
  cases hx : l.getLast? with
  | none => exact absurd (List.getLast?_eq_none.mp hx) h
  | some v => rfl

lemma splitCharAux_append (sep : Char) (acc xs ys : List Char) :
    splitCharAux sep acc (xs ++ sep :: ys) =
      splitCharAux sep acc xs ++ splitCharAux sep [] ys := by
  induction xs generalizing acc with
  | nil => simp [splitCharAux]
  | cons x xs ih =>
    by_cases hx : x = sep
    · subst hx
      simp [splitCharAux, ih]
    · simp [splitCharAux, hx, ih]

lemma splitCharAux_no_sep (sep : Char) (acc l : List Char) (h : sep ∉ l) :
    splitCharAux sep acc l = [acc.reverse ++ l] := by
  induction l generalizing acc with
  | nil => simp [splitCharAux]
  | cons c l ih =>
    have hc : ¬(c = sep) := by
      rintro rfl; exact h (List.mem_cons_self _ _)
    have hl : sep ∉ l := fun hm => h (List.mem_cons_of_mem _ hm)
    simp [splitCharAux, hc, ih _ hl]

lemma splitCharAux_last_no_sep (sep : Char) (acc l : List Char)
    (hacc : sep ∉ acc) : sep ∉ (splitCharAux sep acc l).getLastD [] := by
  induction l generalizing acc with
  | nil =>
    have hstep : (splitCharAux sep acc []).getLastD [] = acc.reverse := rfl
    rw [hstep]
    simpa using hacc
  | cons c rest ih =>
    by_cases hc : c = sep
    · have hstep : splitCharAux sep acc (c :: rest) =
          acc.reverse :: splitCharAux sep [] rest := by
        simp [splitCharAux, hc]
      rw [hstep, List.getLastD_cons,
        getLastD_irrel _ (splitCharAux_ne_nil _ _ _) _ []]
      exact ih [] (by simp)
    · have hstep : splitCharAux sep acc (c :: rest) =
          splitCharAux sep (c :: acc) rest := by
        simp [splitCharAux, hc]
      rw [hstep]
      exact ih _ (by
        intro hm
        rcases List.mem_cons.mp hm with rfl | hm2
        · exact hc rfl
        · exact hacc hm2)

/-- The basename produced by `send_update` contains no path separator. -/
lemma basenameStr_no_slash (s : String) : '/' ∉ (basenameStr s).data := by
  unfold basenameStr
  exact splitCharAux_last_no_sep '/' [] s.data (by simp)

lemma pathSegs_append_plain (dir c : String) (hc : '/' ∉ c.data) :
    pathSegs (dir ++ "/" ++ c) = pathSegs dir ++ [c] := by
  unfold pathSegs
  have hdata : (dir ++ "/" ++ c).data = dir.data ++ '/' :: c.data := by
    rw [String.data_append, String.data_append, List.append_assoc]
    rfl
  rw [hdata, splitCharAux_append, List.map_append]
  congr 1
  rw [splitCharAux_no_sep '/' [] c.data hc]
  rfl

lemma normalizePath_append_plain (dir c : String) (hc : '/' ∉ c.data)
    (h0 : c ≠ "") (h1 : c ≠ ".") (h2 : c ≠ "..") :
    normalizePath (dir ++ "/" ++ c) = normalizePath dir ++ [c] := by
  unfold normalizePath
  rw [pathSegs_append_plain dir c hc, List.foldl_append]
  simp [normStep, h0, h1, h2]

lemma stripRoot_append (l r : List String) : stripRoot l (l ++ r) = some r := by
  induction l with
  | nil => rfl
  | cons x xs ih => simp [stripRoot, ih]

/-- A single plain component under a directory resolves inside it. -/
lemma insideDir_plain_component (dir c : String) (hc : '/' ∉ c.data)
    (h0 : c ≠ "") (h1 : c ≠ ".") (h2 : c ≠ "..") :
    insideDir dir (dir ++ "/" ++ c) = true := by
  unfold insideDir
  rw [normalizePath_append_plain dir c hc h0 h1 h2, stripRoot_append]
  rfl

lemma pathJoin_no_slash (a c : String) (hc : '/' ∉ c.data)
    (ha0 : a ≠ "") (ha1 : a.data.getLast? ≠ some '/') :
    pathJoin a c = a ++ "/" ++ c := by
  unfold pathJoin
  rw [if_neg, if_neg ha0, if_neg ha1]
  intro hhead
  exact hc (List.mem_of_mem_head? (by rw [hhead]; rfl))

/-- C4: `send_update` stores the verified bytes under only the
basename of the declared name, joined to the staging directory; every
path at which bytes are actually written lies strictly inside the
staging directory (for a basename of `""`, `"."` or `".."` the write
raises `IsADirectoryError` and no file is written at all). -/
theorem sendUpdate_writes_only_basename_inside
    (sha1hex : List Nat → String)
    (b64dec : String → Except PyExc (List Nat)) (updateDir : String)
    (fs : UpdateFs) (dd : UpdatePayload) (raw : List Nat)
    (hdec : b64dec dd.data = .ok raw)
    (hdir0 : updateDir ≠ "") (hdir1 : updateDir.data.getLast? ≠ some '/') :
    (∀ fs2 evs, send_update sha1hex b64dec updateDir fs dd =
        .ok (.success (), fs2, evs) →
      fs2.files = (updateDir ++ "/" ++ basenameStr dd.name, raw) ::
          (if fs.dirExists then fs
            else { fs with dirExists := true }).files ∧
      evs = [.launchUpdater (updateDir ++ "/" ++ basenameStr dd.name)] ∧
      '/' ∉ (basenameStr dd.name).data ∧
      insideDir updateDir (updateDir ++ "/" ++ basenameStr dd.name) =
        true) ∧
    (∀ e fs1, send_update sha1hex b64dec updateDir fs dd =
        .error (e, fs1) → fs1.files = fs.files) := by
  have hjoin : pathJoin updateDir (basenameStr dd.name) =
      updateDir ++ "/" ++ basenameStr dd.name :=
    pathJoin_no_slash updateDir (basenameStr dd.name)
      (basenameStr_no_slash dd.name) hdir0 hdir1
  constructor
  · intro fs2 evs hEq
    by_cases h : sha1hex raw = dd.digest
    · by_cases hb : basenameStr dd.name = "" ∨ basenameStr dd.name = "." ∨
        basenameStr dd.name = ".."
      · rw [sendUpdate_dir_error_eq sha1hex b64dec updateDir fs dd raw
          hdec h hb] at hEq
        cases hEq
      · have hsucc := sendUpdate_success_eq sha1hex b64dec updateDir fs dd
          raw hdec h hb
        rw [hjoin] at hsucc
        rw [hsucc] at hEq
        simp only [Except.ok.injEq, Prod.mk.injEq, true_and] at hEq
        refine ⟨?_, hEq.2.symm, basenameStr_no_slash dd.name,
          insideDir_plain_component updateDir _
            (basenameStr_no_slash dd.name) (by tauto) (by tauto)
            (by tauto)⟩
        rw [← hEq.1]
    · rw [sendUpdate_mismatch_eq sha1hex b64dec updateDir fs dd raw
        hdec h] at hEq
      simp at hEq
  · intro e fs1 hEq
    by_cases h : sha1hex raw = dd.digest
    · by_cases hb : basenameStr dd.name = "" ∨ basenameStr dd.name = "." ∨
        basenameStr dd.name = ".."
      · rw [sendUpdate_dir_error_eq sha1hex b64dec updateDir fs dd raw
          hdec h hb] at hEq
        obtain ⟨-, hfs1⟩ :
            PyExc.isADirectoryError (pathJoin updateDir
              (basenameStr dd.name)) = e ∧
            (if fs.dirExists then fs
              else { fs with dirExists := true }) = fs1 := by
          simpa using hEq
        rw [← hfs1]
        by_cases hfs : fs.dirExists <;> simp [hfs]
      · rw [sendUpdate_success_eq sha1hex b64dec updateDir fs dd raw
          hdec h hb] at hEq
        cases hEq
    · rw [sendUpdate_mismatch_eq sha1hex b64dec updateDir fs dd raw
        hdec h] at hEq
      cases hEq

/-- Witness for C4 at the spec's example name `../../etc/passwd`: the
bytes land at `<staging>/passwd`, a slash-free component strictly
inside the staging directory. -/
theorem sendUpdate_writes_only_basename_inside_witness :
    '/' ∉ (basenameStr "../../etc/passwd").data ∧
    insideDir "/update" "/update/passwd" = true ∧
    (⟨true, [("/update/passwd", [2])]⟩ : UpdateFs).files =
      ("/update" ++ "/" ++ basenameStr "../../etc/passwd", [2]) ::
        (if (⟨false, []⟩ : UpdateFs).dirExists then (⟨false, []⟩ : UpdateFs)
          else { (⟨false, []⟩ : UpdateFs) with dirExists := true }).files :=
  have h := (sendUpdate_writes_only_basename_inside (fun _ => "h")
    (fun _ => .ok [2]) "/update" ⟨false, []⟩
    ⟨"../../etc/passwd", "d", "h"⟩ [2] rfl (by decide) (by decide)).1
    ⟨true, [("/update/passwd", [2])]⟩
    [.launchUpdater "/update/passwd"] rfl
  ⟨h.2.2.1, h.2.2.2, h.1⟩

lemma zip_self_flatMap {β γ : Type} (l : List β) (f : β × β → List γ)
    (h : ∀ x, f (x, x) = []) : (l.zip l).flatMap f = [] := by
  induction l with
  | nil => rfl
  | cons x xs ih => simp [List.zip_cons_cons, h, ih]

lemma serverPairChanges_self (t : String) (x : ServerEl) :
    serverPairChanges t x x = [] := by
  simp [serverPairChanges]

lemma routerPairChanges_self (x : RouterEl) : routerPairChanges x x = [] := by
  simp [routerPairChanges]

lemma serverCollChanges_self (t : String) (l : List (String × ServerEl)) :
    serverCollChanges t l l = [] := by
  unfold serverCollChanges
  rw [if_neg (by simp)]
  exact zip_self_flatMap _ _ (fun x => serverPairChanges_self t x)

lemma routerCollChanges_self (l : List (String × RouterEl)) :
    routerCollChanges l l = [] := by
  unfold routerCollChanges
  rw [if_neg (by simp)]
  exact zip_self_flatMap _ _ (fun x => routerPairChanges_self x)

lemma scalarChanges_self (cur rem : TopologyDoc) (hI : rem.ISDID = cur.ISDID)
    (hA : rem.ADID = cur.ADID) (hC : rem.Core = cur.Core) :
    scalarChanges cur rem = [] := by
  simp [scalarChanges, hI, hA, hC]

/-- C5: on any valid topology document, the diff of the document with
itself is empty and the reported comparison status is `OK`. -/
theorem diff_self_empty (T : TopologyDoc) (hv : ValidTopoDoc T) :
    _get_changes T T = [] ∧ compareStatus T T = "OK" := by
  have h : _get_changes T T = [] := by
    unfold _get_changes
    rw [scalarChanges_self T T rfl rfl rfl,
      serverCollChanges_self, serverCollChanges_self,
      serverCollChanges_self, routerCollChanges_self]
    rfl
  exact ⟨h, by unfold compareStatus; rw [if_pos h]⟩

/-- Witness for C5 on a concrete valid document. -/
theorem diff_self_empty_witness :
    _get_changes topoDocA topoDocA = [] ∧
      compareStatus topoDocA topoDocA = "OK" :=
  diff_self_empty topoDocA (by decide)

/-- C10: two topology documents that agree on the scalar fields and on
the four diffed collections produce an empty diff and status `OK`, for
any pair of `DNSServers` collections — the diff never examines
`DNSServers`. -/
theorem diff_ignores_dnsServers (cur rem : TopologyDoc)
    (hv : ValidTopoDoc cur)
    (hI : rem.ISDID = cur.ISDID) (hA : rem.ADID = cur.ADID)
    (hC : rem.Core = cur.Core)
    (hER : rem.EdgeRouters = cur.EdgeRouters)
    (hPS : rem.PathServers = cur.PathServers)
    (hBS : rem.BeaconServers = cur.BeaconServers)
    (hCS : rem.CertificateServers = cur.CertificateServers) :
    _get_changes cur rem = [] ∧ compareStatus cur rem = "OK" := by
  have h : _get_changes cur rem = [] := by
    unfold _get_changes
    rw [scalarChanges_self cur rem hI hA hC, hER, hPS, hBS, hCS,
      serverCollChanges_self, serverCollChanges_self,
      serverCollChanges_self, routerCollChanges_self]
    rfl
  exact ⟨h, by unfold compareStatus; rw [if_pos h]⟩

lemma modNeighborType_fst (n t' : String) (p : String × RouterEl) :
    (modNeighborType n t' p).1 = p.1 := by
  unfold modNeighborType
  split <;> rfl

lemma sortByName_map {α : Type} (f : String × α → String × α)
    (hf : ∀ p, (f p).1 = p.1) (l : List (String × α)) :
    sortByName (l.map f) = (sortByName l).map f := by
  unfold sortByName
  exact (List.map_insertionSort keyLe keyLe f l
    (fun a _ b _ => by unfold keyLe; rw [hf a, hf b])).symm

lemma flatMap_eq_nil_of_forall {β γ : Type} (l : List β) (g : β → List γ)
    (h : ∀ x ∈ l, g x = []) : l.flatMap g = [] := by
  induction l with
  | nil => rfl
  | cons x xs ih =>
    rw [List.flatMap_cons, h x (List.mem_cons_self _ _), List.nil_append]
    exact ih (fun y hy => h y (List.mem_cons_of_mem _ hy))

lemma eq_of_count_one {α : Type} [DecidableEq α] (l : List (String × α))
    (n : String) (r0 : α) (hc : (l.map Prod.fst).count n = 1)
    (hm : (n, r0) ∈ l) : ∀ x ∈ l, x.1 = n → x = (n, r0) := by
  induction l with
  | nil => simp at hm
  | cons p l ih =>
    by_cases hp : p.1 = n
    · have hcount : (l.map Prod.fst).count n = 0 := by
        rw [List.map_cons, List.count_cons] at hc
        simp [hp] at hc
        exact hc
      have hnot : ∀ x ∈ l, x.1 ≠ n := by
        intro x hx hfst
        exact (List.count_eq_zero.mp hcount)
          (List.mem_map.mpr ⟨x, hx, hfst⟩)
      have hpr : p = (n, r0) := by
        rcases List.mem_cons.mp hm with h | h
        · exact h.symm
        · exact absurd rfl (hnot _ h)
      intro x hx hfst
      rcases List.mem_cons.mp hx with rfl | h
      · exact hpr
      · exact absurd hfst (hnot _ h)
    · have hc2 : (l.map Prod.fst).count n = 1 := by
        rw [List.map_cons, List.count_cons] at hc
        simpa [hp] using hc
      have hm2 : (n, r0) ∈ l := by
        rcases List.mem_cons.mp hm with h | h
        · exact absurd (congrArg Prod.fst h.symm) hp
        · exact h
      intro x hx hfst
      rcases List.mem_cons.mp hx with rfl | h
      · exact absurd hfst hp
      · exact ih hc2 hm2 x h hfst

lemma flatMap_single_of_count {α γ : Type} [DecidableEq α]
    (l : List (String × α)) (g : String × α → List γ) (n : String) (r0 : α)
    (out : List γ) (hc : (l.map Prod.fst).count n = 1) (hm : (n, r0) ∈ l)
    (hg0 : ∀ x ∈ l, x.1 ≠ n → g x = []) (hg1 : g (n, r0) = out) :
    l.flatMap g = out := by
  induction l with
  | nil => simp at hc
  | cons p l ih =>
    rw [List.flatMap_cons]
    by_cases hp : p.1 = n
    · have hcount : (l.map Prod.fst).count n = 0 := by
        rw [List.map_cons, List.count_cons] at hc
        simp [hp] at hc
        exact hc
      have hnot : ∀ x ∈ l, x.1 ≠ n := by
        intro x hx hfst
        exact (List.count_eq_zero.mp hcount)
          (List.mem_map.mpr ⟨x, hx, hfst⟩)
      have hpr : p = (n, r0) :=
        eq_of_count_one (p :: l) n r0 hc hm p (List.mem_cons_self _ _) hp
      have hrest : l.flatMap g = [] :=
        flatMap_eq_nil_of_forall l g (fun x hx => hg0 x
          (List.mem_cons_of_mem _ hx) (hnot x hx))
      rw [hrest, hpr, hg1, List.append_nil]
    · have hc2 : (l.map Prod.fst).count n = 1 := by
        rw [List.map_cons, List.count_cons] at hc
        simpa [hp] using hc
      have hm2 : (n, r0) ∈ l := by
        rcases List.mem_cons.mp hm with h | h
        · exact absurd (congrArg Prod.fst h.symm) hp
        · exact h
      rw [hg0 p (List.mem_cons_self _ _) hp, List.nil_append]
      exact ih hc2 hm2 (fun x hx hfst =>
        hg0 x (List.mem_cons_of_mem _ hx) hfst)

lemma routerCollChanges_single (l : List (String × RouterEl))
    (n t' : String) (r0 : RouterEl)
    (hc1 : (l.map Prod.fst).count n = 1) (hm : (n, r0) ∈ l)
    (hne : r0.Interface.NeighborType ≠ t') :
    routerCollChanges l (l.map (modNeighborType n t')) =
      [ifaceMsg "NeighborType" "EdgeRouters" t'
        r0.Interface.NeighborType] := by
  unfold routerCollChanges
  rw [sortByName_map (modNeighborType n t') (modNeighborType_fst n t') l]
  rw [if_neg (by simp)]
  rw [List.map_map, List.zip_map', List.flatMap_map]
  have hcs : ((sortByName l).map Prod.fst).count n = 1 := by
    rw [← hc1]
    exact ((List.perm_insertionSort keyLe l).map Prod.fst).count_eq n
  have hms : (n, r0) ∈ sortByName l := by
    unfold sortByName
    rw [List.mem_insertionSort]
    exact hm
  refine flatMap_single_of_count (sortByName l) _ n r0 _ hcs hms ?_ ?_
  · intro x hx hfst
    have hfx : modNeighborType n t' x = x := by
      unfold modNeighborType
      rw [if_neg hfst]
    simp only [Function.comp, hfx]
    exact routerPairChanges_self x.2
  · have hfm : modNeighborType n t' (n, r0) =
        (n, { r0 with
              Interface := { r0.Interface with NeighborType := t' } }) := by
      unfold modNeighborType
      rw [if_pos rfl]
    simp only [Function.comp, hfm]
    simp [routerPairChanges, ifaceMsg, Ne.symm hne]

/-- C6: for two valid topology documents that differ only in the
`NeighborType` interface sub-field of exactly one edge router, the diff
is exactly one change entry, and that entry names the router interface
field `Interface:NeighborType`. -/
theorem diff_single_neighborType_change (cur rem : TopologyDoc)
    (n t' : String) (r0 : RouterEl) (hv : ValidTopoDoc cur)
    (hI : rem.ISDID = cur.ISDID) (hA : rem.ADID = cur.ADID)
    (hC : rem.Core = cur.Core)
    (hPS : rem.PathServers = cur.PathServers)
    (hBS : rem.BeaconServers = cur.BeaconServers)
    (hCS : rem.CertificateServers = cur.CertificateServers)
    (hDNS : rem.DNSServers = cur.DNSServers)
    (hER : rem.EdgeRouters = cur.EdgeRouters.map (modNeighborType n t'))
    (hc1 : (cur.EdgeRouters.map Prod.fst).count n = 1)
    (hm : (n, r0) ∈ cur.EdgeRouters)
    (hne : r0.Interface.NeighborType ≠ t') :
    _get_changes cur rem =
      [ifaceMsg "NeighborType" "EdgeRouters" t'
        r0.Interface.NeighborType] := by
  unfold _get_changes
  rw [scalarChanges_self cur rem hI hA hC, hPS, hBS, hCS, hER,
    serverCollChanges_self, serverCollChanges_self, serverCollChanges_self,
    routerCollChanges_single cur.EdgeRouters n t' r0 hc1 hm hne]
  rfl

/-- Witness for C6: changing router `3`'s `NeighborType` from `PARENT`
to `CHILD` in `topoDocA` yields exactly one change entry naming
`Interface:NeighborType`. -/
theorem diff_single_neighborType_change_witness :
    _get_changes topoDocA topoDocANt =
      [ifaceMsg "NeighborType" "EdgeRouters" "CHILD" "PARENT"] :=
  diff_single_neighborType_change topoDocA topoDocANt "3" "CHILD" routerA
    (by decide) rfl rfl rfl rfl rfl rfl rfl rfl (by decide) (by decide)
    (by decide)

/-- Witness for C10: `topoDocA` against a copy with a different
`DNSServers` collection diffs empty with status `OK`. -/
theorem diff_ignores_dnsServers_witness :
    _get_changes topoDocA topoDocDnsDiff = [] ∧
      compareStatus topoDocA topoDocDnsDiff = "OK" ∧
      topoDocDnsDiff.DNSServers ≠ topoDocA.DNSServers :=
  ⟨(diff_ignores_dnsServers topoDocA topoDocDnsDiff (by decide)
      rfl rfl rfl rfl rfl rfl rfl).1,
    (diff_ignores_dnsServers topoDocA topoDocDnsDiff (by decide)
      rfl rfl rfl rfl rfl rfl rfl).2,
    by decide⟩

lemma sortByName_sorted {α : Type} (l : List (String × α)) :
    List.Sorted keyLe (sortByName l) := by
  letI : IsTotal (String × α) keyLe := ⟨fun a b => Int.le_total _ _⟩
  letI : IsTrans (String × α) keyLe :=
    ⟨fun a b c h1 h2 => Int.le_trans h1 h2⟩
  exact List.sorted_insertionSort keyLe l

lemma sortByName_perm {α : Type} (l : List (String × α)) :
    (sortByName l).Perm l :=
  List.perm_insertionSort keyLe l

lemma serverCollChanges_count (t : String)
    (cur rem : List (String × ServerEl))
    (h : rem.length ≠ cur.length) :
    serverCollChanges t cur rem = [countMsg t] := by
  unfold serverCollChanges
  rw [if_pos (by simpa [sortByName] using h)]

lemma serverCollChanges_pairwise (t : String)
    (cur rem : List (String × ServerEl))
    (h : rem.length = cur.length) :
    serverCollChanges t cur rem =
      (((sortByName rem).map Prod.snd).zip
        ((sortByName cur).map Prod.snd)).flatMap
        (fun p => serverPairChanges t p.1 p.2) := by
  unfold serverCollChanges
  rw [if_neg (by simpa [sortByName] using h)]

lemma routerCollChanges_count (cur rem : List (String × RouterEl))
    (h : rem.length ≠ cur.length) :
    routerCollChanges cur rem = [countMsg "EdgeRouters"] := by
  unfold routerCollChanges
  rw [if_pos (by simpa [sortByName] using h)]

lemma routerCollChanges_pairwise (cur rem : List (String × RouterEl))
    (h : rem.length = cur.length) :
    routerCollChanges cur rem =
      (((sortByName rem).map Prod.snd).zip
        ((sortByName cur).map Prod.snd)).flatMap
        (fun p => routerPairChanges p.1 p.2) := by
  unfold routerCollChanges
  rw [if_neg (by simpa [sortByName] using h)]

lemma diff_only_PS (cur rem : TopologyDoc)
    (hI : rem.ISDID = cur.ISDID) (hA : rem.ADID = cur.ADID)
    (hC : rem.Core = cur.Core)
    (hCS : rem.CertificateServers = cur.CertificateServers)
    (hBS : rem.BeaconServers = cur.BeaconServers)
    (hER : rem.EdgeRouters = cur.EdgeRouters) :
    _get_changes cur rem =
      serverCollChanges "PathServers" cur.PathServers rem.PathServers := by
  unfold _get_changes
  rw [scalarChanges_self cur rem hI hA hC, hCS, hBS, hER,
    serverCollChanges_self, serverCollChanges_self, routerCollChanges_self]
  simp

lemma diff_only_CS (cur rem : TopologyDoc)
    (hI : rem.ISDID = cur.ISDID) (hA : rem.ADID = cur.ADID)
    (hC : rem.Core = cur.Core)
    (hPS : rem.PathServers = cur.PathServers)
    (hBS : rem.BeaconServers = cur.BeaconServers)
    (hER : rem.EdgeRouters = cur.EdgeRouters) :
    _get_changes cur rem =
      serverCollChanges "CertificateServers" cur.CertificateServers
        rem.CertificateServers := by
  unfold _get_changes
  rw [scalarChanges_self cur rem hI hA hC, hPS, hBS, hER,
    serverCollChanges_self, serverCollChanges_self, routerCollChanges_self]
  simp

lemma diff_only_BS (cur rem : TopologyDoc)
    (hI : rem.ISDID = cur.ISDID) (hA : rem.ADID = cur.ADID)
    (hC : rem.Core = cur.Core)
    (hPS : rem.PathServers = cur.PathServers)
    (hCS : rem.CertificateServers = cur.CertificateServers)
    (hER : rem.EdgeRouters = cur.EdgeRouters) :
    _get_changes cur rem =
      serverCollChanges "BeaconServers" cur.BeaconServers
        rem.BeaconServers := by
  unfold _get_changes
  rw [scalarChanges_self cur rem hI hA hC, hPS, hCS, hER,
    serverCollChanges_self, serverCollChanges_self, routerCollChanges_self]
  simp

lemma diff_only_ER (cur rem : TopologyDoc)
    (hI : rem.ISDID = cur.ISDID) (hA : rem.ADID = cur.ADID)
    (hC : rem.Core = cur.Core)
    (hPS : rem.PathServers = cur.PathServers)
    (hCS : rem.CertificateServers = cur.CertificateServers)
    (hBS : rem.BeaconServers = cur.BeaconServers) :
    _get_changes cur rem =
      routerCollChanges cur.EdgeRouters rem.EdgeRouters := by
  unfold _get_changes
  rw [scalarChanges_self cur rem hI hA hC, hPS, hCS, hBS,
    serverCollChanges_self, serverCollChanges_self, serverCollChanges_self]
  simp

/-- C7: for each of the four diffed collections (isolated by holding
the scalars and the other three collections equal), a count mismatch
yields exactly one count-differs entry and suppresses all per-field
comparison for that collection; equal counts yield the pairwise
address/field comparison of the two sides sorted by the numeric
interpretation of their element names — and the sorting used is indeed
a sorted permutation with respect to the numeric name order. -/
theorem diff_counts_then_pairwise (cur rem : TopologyDoc)
    (hv1 : ValidTopoDoc cur) (hv2 : ValidTopoDoc rem)
    (hI : rem.ISDID = cur.ISDID) (hA : rem.ADID = cur.ADID)
    (hC : rem.Core = cur.Core) :
    ((rem.CertificateServers = cur.CertificateServers →
      rem.BeaconServers = cur.BeaconServers →
      rem.EdgeRouters = cur.EdgeRouters →
      (rem.PathServers.length ≠ cur.PathServers.length →
        _get_changes cur rem = [countMsg "PathServers"]) ∧
      (rem.PathServers.length = cur.PathServers.length →
        _get_changes cur rem =
          (((sortByName rem.PathServers).map Prod.snd).zip
            ((sortByName cur.PathServers).map Prod.snd)).flatMap
            (fun p => serverPairChanges "PathServers" p.1 p.2))) ∧
    (rem.PathServers = cur.PathServers →
      rem.BeaconServers = cur.BeaconServers →
      rem.EdgeRouters = cur.EdgeRouters →
      (rem.CertificateServers.length ≠ cur.CertificateServers.length →
        _get_changes cur rem = [countMsg "CertificateServers"]) ∧
      (rem.CertificateServers.length = cur.CertificateServers.length →
        _get_changes cur rem =
          (((sortByName rem.CertificateServers).map Prod.snd).zip
            ((sortByName cur.CertificateServers).map Prod.snd)).flatMap
            (fun p => serverPairChanges "CertificateServers" p.1 p.2))) ∧
    (rem.PathServers = cur.PathServers →
      rem.CertificateServers = cur.CertificateServers →
      rem.EdgeRouters = cur.EdgeRouters →
      (rem.BeaconServers.length ≠ cur.BeaconServers.length →
        _get_changes cur rem = [countMsg "BeaconServers"]) ∧
      (rem.BeaconServers.length = cur.BeaconServers.length →
        _get_changes cur rem =
          (((sortByName rem.BeaconServers).map Prod.snd).zip
            ((sortByName cur.BeaconServers).map Prod.snd)).flatMap
            (fun p => serverPairChanges "BeaconServers" p.1 p.2))) ∧
    (rem.PathServers = cur.PathServers →
      rem.CertificateServers = cur.CertificateServers →
      rem.BeaconServers = cur.BeaconServers →
      (rem.EdgeRouters.length ≠ cur.EdgeRouters.length →
        _get_changes cur rem = [countMsg "EdgeRouters"]) ∧
      (rem.EdgeRouters.length = cur.EdgeRouters.length →
        _get_changes cur rem =
          (((sortByName rem.EdgeRouters).map Prod.snd).zip
            ((sortByName cur.EdgeRouters).map Prod.snd)).flatMap
            (fun p => routerPairChanges p.1 p.2))) ∧
    (∀ l : List (String × ServerEl),
      List.Sorted keyLe (sortByName l) ∧ (sortByName l).Perm l) ∧
    (∀ l : List (String × RouterEl),
      List.Sorted keyLe (sortByName l) ∧ (sortByName l).Perm l)) := by
  refine ⟨?_, ?_, ?_, ?_, ?_, ?_⟩
  · intro hCS hBS hER
    rw [diff_only_PS cur rem hI hA hC hCS hBS hER]
    exact ⟨serverCollChanges_count _ _ _, serverCollChanges_pairwise _ _ _⟩
  · intro hPS hBS hER
    rw [diff_only_CS cur rem hI hA hC hPS hBS hER]
    exact ⟨serverCollChanges_count _ _ _, serverCollChanges_pairwise _ _ _⟩
  · intro hPS hCS hER
    rw [diff_only_BS cur rem hI hA hC hPS hCS hER]
    exact ⟨serverCollChanges_count _ _ _, serverCollChanges_pairwise _ _ _⟩
  · intro hPS hCS hBS
    rw [diff_only_ER cur rem hI hA hC hPS hCS hBS]
    exact ⟨routerCollChanges_count _ _, routerCollChanges_pairwise _ _⟩
  · exact fun l => ⟨sortByName_sorted l, sortByName_perm l⟩
  · exact fun l => ⟨sortByName_sorted l, sortByName_perm l⟩

/-- Witness for C7: a path-server count mismatch produces exactly the
count-differs entry; an equal-count address difference produces the
pairwise comparison result; the sort is sorted and a permutation. -/
theorem diff_counts_then_pairwise_witness :
    _get_changes topoDocA topoDocPsExtra = [countMsg "PathServers"] ∧
    _get_changes topoDocA topoDocPsAddr =
      (((sortByName topoDocPsAddr.PathServers).map Prod.snd).zip
        ((sortByName topoDocA.PathServers).map Prod.snd)).flatMap
        (fun p => serverPairChanges "PathServers" p.1 p.2) ∧
    List.Sorted keyLe (sortByName topoDocA.PathServers) ∧
    (sortByName topoDocA.PathServers).Perm topoDocA.PathServers :=
  ⟨((diff_counts_then_pairwise topoDocA topoDocPsExtra (by decide)
      (by decide) rfl rfl rfl).1 rfl rfl rfl).1 (by decide),
    ((diff_counts_then_pairwise topoDocA topoDocPsAddr (by decide)
      (by decide) rfl rfl rfl).1 rfl rfl rfl).2 rfl,
    ((diff_counts_then_pairwise topoDocA topoDocA (by decide)
      (by decide) rfl rfl rfl).2.2.2.2.1 topoDocA.PathServers).1,
    ((diff_counts_then_pairwise topoDocA topoDocA (by decide)
      (by decide) rfl rfl rfl).2.2.2.2.1 topoDocA.PathServers).2⟩

lemma saveRouters_error_of_unresolved (ads : List DbAD)
    (rs : List LibRouter)
    (h : ∃ r ∈ rs,
      adObjectsGet ads r.interface.neighbor_ad r.interface.neighbor_isd =
        none) :
    ∃ rows, saveRouters ads rs = .error (.doesNotExist, rows) := by
  induction rs with
  | nil => simp at h
  | cons r rest ih =>
    cases hget : adObjectsGet ads r.interface.neighbor_ad
      r.interface.neighbor_isd with
    | none => exact ⟨[], by unfold saveRouters; rw [hget]⟩
    | some nb =>
      have hrest : ∃ r2 ∈ rest,
          adObjectsGet ads r2.interface.neighbor_ad
            r2.interface.neighbor_isd = none := by
        rcases h with ⟨r2, hr2, hr2n⟩
        rcases List.mem_cons.mp hr2 with rfl | hmem
        · rw [hget] at hr2n
          simp at hr2n
        · exact ⟨r2, hmem, hr2n⟩
      rcases ih hrest with ⟨rows, hrows⟩
      refine ⟨{ addr := r.addr
                name := r.name
                neighbor_ad_id := nb.id
                neighbor_type := r.interface.neighbor_type
                interface_addr := r.interface.addr
                interface_toaddr := r.interface.to_addr
                interface_id := r.interface.if_id } :: rows, ?_⟩
      simp only [saveRouters, hget, hrows]

/-- C8 amended: a router whose neighbor reference does not resolve
against an existing `AD` record makes `fill_from_topology` raise
`AD.DoesNotExist`, which propagates out of the method (the surrounding
`try` catches only `IntegrityError`) — the apply operation crashes
rather than skipping the element. -/
theorem fill_unresolved_neighbor_raises (st : AdState)
    (topology : LibTopology) (clear : Bool)
    (h : ∃ r ∈ topology.routers,
      adObjectsGet st.ads r.interface.neighbor_ad
        r.interface.neighbor_isd = none) :
    fill_from_topology st topology clear = .error .doesNotExist := by
  rcases saveRouters_error_of_unresolved st.ads topology.routers h with
    ⟨rows, hrows⟩
  unfold fill_from_topology
  by_cases hc : clear
  · simp [hc, hrows]
  · simp [hc, hrows]

/-- C8 counterexample: applying a topology whose single router
references an absent neighbor domain makes `fill_from_topology` raise
(return an exception) instead of skipping the router — the claim that
the apply operation raises no exception fails here. -/
theorem fill_unresolved_neighbor_cex :
    fill_from_topology adStateNoAds topoOneRouter true =
      .error .doesNotExist := rfl

/-- Witness for the amended C8 on a database whose `AD` table does not
contain the referenced neighbor. -/
theorem fill_unresolved_neighbor_raises_witness :
    fill_from_topology adStateOneAd topoOneRouter false =
      .error .doesNotExist :=
  fill_unresolved_neighbor_raises adStateOneAd topoOneRouter false
    (by decide)

/-- C1 amended: the handlers convert the anticipated fault conditions
— invalid server type, absent lock path, no lock contenders, vanished
winner node, missing topology file, digest mismatch, invalid command —
into failure envelopes; but the three handler-level faults the claim
cites are raised, not enveloped: a supervisor lookup failure raises a
`Fault` out of `get_process_info`, a malformed base64 body raises out
of `send_update`, and a malformed NUL-delimited lock value raises
`ValueError` out of `get_master_id` (see also the counterexample). -/
theorem handlers_envelope_anticipated_faults :
    (∀ (zk : ZkState) (i a : Int) (st : String),
      st ∉ (["bs", "cs", "ps"] : List String) →
      get_master_id zk i a st = .ok (.failure ["Invalid server type"])) ∧
    (∀ (zk : ZkState) (i a : Int) (st : String),
      st ∈ (["bs", "cs", "ps"] : List String) → zk.children = none →
      get_master_id zk i a st = .ok (.failure ["No lock data found"])) ∧
    (∀ (zk : ZkState) (i a : Int) (st : String),
      st ∈ (["bs", "cs", "ps"] : List String) → zk.children = some [] →
      get_master_id zk i a st =
        .ok (.failure ["No lock contenders found"])) ∧
    (∀ (zk : ZkState) (i a : Int) (st : String)
      (contenders : List String),
      st ∈ (["bs", "cs", "ps"] : List String) →
      zk.children = some contenders → contenders ≠ [] →
      zk.data (pathJoin (lockPath i a st)
        ((List.insertionSort contLe contenders).headD "")) = none →
      get_master_id zk i a st = .ok (.failure ["No lock data found"])) ∧
    (∀ (jsonDump : String → String) (topology : String),
      (update_topology jsonDump none topology).1 =
        .failure ["No AD topology found"]) ∧
    (∀ (sha1hex : List Nat → String)
      (b64dec : String → Except PyExc (List Nat)) (updateDir : String)
      (fs : UpdateFs) (dd : UpdatePayload) (raw : List Nat),
      b64dec dd.data = .ok raw → sha1hex raw ≠ dd.digest →
      send_update sha1hex b64dec updateDir fs dd =
        .ok (.failure ["Hash value does not match"], fs, [])) ∧
    (∀ (sup : Supervisor) (i a : Int) (process_name command : String),
      command ≠ "START" → command ≠ "STOP" → command ≠ "RESTART" →
      control_process sup i a process_name command =
        .ok (.failure ["Invalid command"])) ∧
    (∀ (sup : Supervisor) (full_process_name : String),
      sup.info full_process_name = none →
      get_process_info sup full_process_name =
        .error (.fault "BAD_NAME")) ∧
    (∀ (sha1hex : List Nat → String)
      (b64dec : String → Except PyExc (List Nat)) (updateDir : String)
      (fs : UpdateFs) (dd : UpdatePayload) (e : PyExc),
      b64dec dd.data = .error e →
      send_update sha1hex b64dec updateDir fs dd = .error (e, fs)) ∧
    (∀ (zk : ZkState) (i a : Int) (st : String)
      (contenders : List String) (v : String),
      st ∈ (["bs", "cs", "ps"] : List String) →
      zk.children = some contenders → contenders ≠ [] →
      zk.data (pathJoin (lockPath i a st)
        ((List.insertionSort contLe contenders).headD "")) = some v →
      (splitNul v).length ≠ 3 →
      get_master_id zk i a st =
        .error (.valueError "not enough values to unpack")) := by
  refine ⟨?_, ?_, ?_, ?_, ?_, ?_, ?_, ?_, ?_, ?_⟩
  · intro zk i a st h
    unfold get_master_id
    rw [if_pos h]
  · intro zk i a st h1 h2
    unfold get_master_id
    rw [if_neg (by simp only [not_not]; exact h1), h2]
  · intro zk i a st h1 h2
    unfold get_master_id
    rw [if_neg (by simp only [not_not]; exact h1), h2]
    simp
  · intro zk i a st contenders h1 h2 hne hdata
    unfold get_master_id
    rw [if_neg (by simp only [not_not]; exact h1), h2]
    simp only [if_neg hne, hdata]
  · intro jsonDump topology
    rfl
  · intro sha1hex b64dec updateDir fs dd raw hdec hne
    simp only [send_update, hdec]
    rw [if_pos hne]
  · intro sup i a process_name command hS hT hR
    simp only [control_process, if_neg hS, if_neg hT, if_neg hR]
  · intro sup full_process_name h
    unfold get_process_info
    rw [h]
  · intro sha1hex b64dec updateDir fs dd e hdec
    simp only [send_update, hdec]
  · intro zk i a st contenders v h1 h2 hne hdata hlen
    unfold get_master_id
    rw [if_neg (by simp only [not_not]; exact h1), h2]
    simp only [if_neg hne, hdata]
    rcases hsp : splitNul v with _ | ⟨a1, _ | ⟨b1, _ | ⟨c1, _ | ⟨d1, rest⟩⟩⟩⟩
    · rfl
    · rfl
    · rfl
    · exact absurd (by rw [hsp]; rfl) hlen
    · rfl

/-- Witness for the amended C1: each anticipated fault kind converted
to an envelope, and each cited handler-level fault escaping, at
concrete inputs. -/
theorem handlers_envelope_anticipated_faults_witness :
    get_master_id ⟨none, fun _ => none⟩ 1 1 "xx" =
      .ok (.failure ["Invalid server type"]) ∧
    get_master_id ⟨none, fun _ => none⟩ 1 1 "bs" =
      .ok (.failure ["No lock data found"]) ∧
    get_master_id ⟨some [], fun _ => none⟩ 1 1 "bs" =
      .ok (.failure ["No lock contenders found"]) ∧
    get_master_id ⟨some ["a__1"], fun _ => none⟩ 1 1 "bs" =
      .ok (.failure ["No lock data found"]) ∧
    (update_topology (fun s : String => s) none "doc").1 =
      .failure ["No AD topology found"] ∧
    send_update (fun _ => "aa") (fun _ => .ok [1]) "/update" ⟨false, []⟩
        ⟨"pkg", "AQ==", "zz"⟩ =
      .ok (.failure ["Hash value does not match"], ⟨false, []⟩, []) ∧
    control_process supNone 1 1 "bs1" "BOUNCE" =
      .ok (.failure ["Invalid command"]) ∧
    get_process_info supNone "ad1-1:bs1" = .error (.fault "BAD_NAME") ∧
    send_update (fun _ => "aa")
        (fun _ => .error (.binasciiError "Incorrect padding")) "/update"
        ⟨false, []⟩ ⟨"pkg", "%%", "aa"⟩ =
      .error (.binasciiError "Incorrect padding", ⟨false, []⟩) ∧
    get_master_id zkMalformed 1 1 "bs" =
      .error (.valueError "not enough values to unpack") :=
  ⟨handlers_envelope_anticipated_faults.1 _ 1 1 "xx" (by decide),
    handlers_envelope_anticipated_faults.2.1 _ 1 1 "bs" (by decide) rfl,
    handlers_envelope_anticipated_faults.2.2.1 _ 1 1 "bs" (by decide) rfl,
    handlers_envelope_anticipated_faults.2.2.2.1 _ 1 1 "bs" ["a__1"]
      (by decide) rfl (by decide) rfl,
    handlers_envelope_anticipated_faults.2.2.2.2.1 _ "doc",
    handlers_envelope_anticipated_faults.2.2.2.2.2.1 _ _ "/update"
      ⟨false, []⟩ ⟨"pkg", "AQ==", "zz"⟩ [1] rfl (by decide),
    handlers_envelope_anticipated_faults.2.2.2.2.2.2.1 supNone 1 1 "bs1"
      "BOUNCE" (by decide) (by decide) (by decide),
    handlers_envelope_anticipated_faults.2.2.2.2.2.2.2.1 supNone
      "ad1-1:bs1" rfl,
    handlers_envelope_anticipated_faults.2.2.2.2.2.2.2.2.1 _ _ "/update"
      ⟨false, []⟩ ⟨"pkg", "%%", "aa"⟩ (.binasciiError "Incorrect padding")
      rfl,
    handlers_envelope_anticipated_faults.2.2.2.2.2.2.2.2.2 zkMalformed
      1 1 "bs" ["lock__0000000001"] "justonefield" (by decide) rfl
      (by decide) rfl (by decide)⟩
